import Mathlib

/-!
Verification development for the beam-analysis report generator
(`code.py`, class `BeamReportGenerator`).

The program loads a table of rows (position `x`, `Shear force`, `Bending
Moment`), derives the beam length as the maximum position, and emits a LaTeX
document by string concatenation.  We embed the string-building pipeline
shallowly: numeric cell values are rationals (the Excel columns are read as
floats; every concrete value we reason about is exactly representable), the
`datetime.now()` read inside `_create_title_page` becomes an explicit
`currentDate` argument, and the `pandas` exception raised by `idxmax` on an
empty column becomes an `Option` result.
-/

/-- One row of the loaded table: `x`, `Shear force`, `Bending Moment`. -/
structure Row where
  x : ℚ
  shear : ℚ
  moment : ℚ
deriving DecidableEq, Repr

/-- Model of `Series.max()`: `none` models the NaN produced on an empty column. -/
def pandasMax : List ℚ → Option ℚ
  | [] => none
  | a :: t => some (t.foldl max a)

/-- Model of `Series.min()`: `none` models the NaN produced on an empty column. -/
def pandasMin : List ℚ → Option ℚ
  | [] => none
  | a :: t => some (t.foldl min a)

/-- Model of `Series.idxmax()`: index of the first occurrence of the maximum
(`none` models the `ValueError` raised on an empty column). -/
def idxmax : List ℚ → Option Nat
  | [] => none
  | a :: t =>
    match idxmax t, pandasMax t with
    | some j, some m => if a < m then some (j + 1) else some 0
    | _, _ => some 0

/-- Model of `Series.idxmin()`: index of the first occurrence of the minimum
(`none` models the `ValueError` raised on an empty column). -/
def idxmin : List ℚ → Option Nat
  | [] => none
  | a :: t =>
    match idxmin t, pandasMin t with
    | some j, some m => if a > m then some (j + 1) else some 0
    | _, _ => some 0

/-- Decimal digit character for `d` (`0 ≤ d ≤ 9` at every call site). -/
def digitChar (d : Nat) : String :=
  String.singleton (Char.ofNat (48 + d % 10))

/-- Exactly `d` decimal digits of `m`, most significant first, zero padded
(as Python prints the fractional part of a `:.df` conversion). -/
def decDigitsFixed : Nat → Nat → String
  | 0, _ => ""
  | d + 1, m => decDigitsFixed d (m / 10) ++ digitChar (m % 10)

/-- Round to the nearest integer, ties to even — the rounding used by
Python `format` for `:.1f` / `:.2f` on exactly representable values. -/
def roundHalfEven (q : ℚ) : ℤ :=
  let f := Rat.floor q
  let r := q - f
  if r < 1/2 then f
  else if r > 1/2 then f + 1
  else if f % 2 = 0 then f else f + 1

/-- Python `f"{q:.df}"` (fixed-point, `d` decimals, round half to even). -/
def fmtFixed (d : Nat) (q : ℚ) : String :=
  let n := roundHalfEven (q * (10 : ℚ) ^ d)
  let m := n.natAbs
  (if q < 0 then "-" else "") ++ toString (m / 10 ^ d) ++ "." ++ decDigitsFixed d (m % 10 ^ d)

/-- Fractional decimal digits of `f` (`0 ≤ f < 1`), with fuel; exact for the
terminating decimal values handled by the program. -/
def fracDigits : Nat → ℚ → String
  | 0, _ => ""
  | fuel + 1, f =>
    if f = 0 then ""
    else
      let f10 := f * 10
      let d := Rat.floor f10
      digitChar d.toNat ++ fracDigits fuel (f10 - d)

/-- Python `f"{q}"` / `str(q)` for a float value: sign, integer part, a dot,
then the fractional digits (at least one digit, so `2 ↦ "2.0"`). -/
def pyStr (q : ℚ) : String :=
  let a := if q < 0 then -q else q
  let ip := Rat.floor a
  let fr := a - ip
  (if q < 0 then "-" else "") ++ toString ip.toNat ++ "." ++
    (if fr = 0 then "0" else fracDigits 20 fr)

/-- Rendering of an optional value: `none` is NaN, which Python prints
as `"nan"` under every conversion used by the program. -/
def pyStrN : Option ℚ → String
  | some q => pyStr q
  | none => "nan"

/-- Rendering `f"{v:.1f}"` where `v` may be NaN. -/
def fmt1N : Option ℚ → String
  | some q => fmtFixed 1 q
  | none => "nan"

/-- Rendering `f"{v:.2f}"` where `v` may be NaN. -/
def fmt2N : Option ℚ → String
  | some q => fmtFixed 2 q
  | none => "nan"

example : fmtFixed 1 (9/4 : ℚ) = "2.2" := by with_unfolding_all rfl
example : fmtFixed 2 (10 : ℚ) = "10.00" := by with_unfolding_all rfl
example : fmtFixed 2 (-5 : ℚ) = "-5.00" := by with_unfolding_all rfl
example : fmtFixed 1 (0 : ℚ) = "0.0" := by with_unfolding_all rfl
example : pyStr (5/2 : ℚ) = "2.5" := by with_unfolding_all rfl
example : pyStr (2 : ℚ) = "2.0" := by with_unfolding_all rfl
example : pyStr (-3/2 : ℚ) = "-1.5" := by with_unfolding_all rfl
example : pyStr (9/4 : ℚ) = "2.25" := by with_unfolding_all rfl

/-! ## Loading (`load_data`, lines 27-39)

`pd.read_excel` parses the table into rows; `self.beam_length =
self.data['x'].max()`.  On an empty table the pandas `max` is NaN
(modelled as `none`); no exception is raised by `load_data`. -/

/-- State after `load_data`: the rows and the derived beam length. -/
structure LoadedState where
  data : List Row
  beamLength : Option ℚ
deriving DecidableEq, Repr

/-- Model of `load_data`: stores the rows and sets `beam_length = data['x'].max()`.
It is total: the source raises nothing here, even for zero rows. -/
def loadData (rows : List Row) : LoadedState :=
  { data := rows, beamLength := pandasMax (rows.map Row.x) }

/-! ## Column accessors used by `_create_data_table` and `_create_conclusion` -/

/-- Column expression `self.data['Shear force'].max()`. -/
def shearMax (d : List Row) : Option ℚ := pandasMax (d.map Row.shear)

/-- Column expression `self.data['Shear force'].min()`. -/
def shearMin (d : List Row) : Option ℚ := pandasMin (d.map Row.shear)

/-- Column expression `self.data['Bending Moment'].max()`. -/
def momentMax (d : List Row) : Option ℚ := pandasMax (d.map Row.moment)

/-- Lookup `self.data.loc[self.data['Shear force'].idxmax(), 'x']`. -/
def shearMaxX (d : List Row) : Option ℚ :=
  (idxmax (d.map Row.shear)).bind fun i => (d.get? i).map Row.x

/-- Lookup `self.data.loc[self.data['Shear force'].idxmin(), 'x']`. -/
def shearMinX (d : List Row) : Option ℚ :=
  (idxmin (d.map Row.shear)).bind fun i => (d.get? i).map Row.x

/-- Lookup `self.data.loc[self.data['Bending Moment'].idxmax(), 'x']`. -/
def momentMaxX (d : List Row) : Option ℚ :=
  (idxmax (d.map Row.moment)).bind fun i => (d.get? i).map Row.x

/-- Lookup `self.data.loc[self.data['Shear force'] == 0, 'x'].values[0]`:
position of the first row whose shear is exactly 0. -/
def zeroShearX (d : List Row) : Option ℚ :=
  (d.find? fun r => r.shear == 0).map Row.x

/-- The zero-shear slot of the Data Interpretation list (line 334):
the first exact-zero position rendered raw, or the string `N/A`. -/
def zeroText (d : List Row) : String :=
  if (d.map Row.shear).contains 0 then pyStrN (zeroShearX d) else "N/A"

/-! ## `_create_preamble` (lines 41-126): one fixed literal -/

/-- The LaTeX preamble emitted by `_create_preamble`. -/
def createPreamble : String :=
  "\n\\documentclass[12pt, a4paper]\x7breport\x7d\n\n" ++
  "% ============================================\n% PACKAGES\n% ============================================\n" ++
  "\\usepackage[utf8]\x7binputenc\x7d\n" ++
  "\\usepackage[T1]\x7bfontenc\x7d\n" ++
  "\\usepackage\x7bgeometry\x7d\n" ++
  "\\usepackage\x7bgraphicx\x7d\n" ++
  "\\usepackage\x7bbooktabs\x7d\n" ++
  "\\usepackage\x7barray\x7d\n" ++
  "\\usepackage\x7bfloat\x7d\n" ++
  "\\usepackage\x7bxcolor\x7d\n" ++
  "\\usepackage\x7bcolortbl\x7d\n" ++
  "\\usepackage\x7btikz\x7d\n" ++
  "\\usepackage\x7bpgfplots\x7d\n" ++
  "\\usepackage\x7bhyperref\x7d\n" ++
  "\\usepackage\x7bfancyhdr\x7d\n" ++
  "\\usepackage\x7btitlesec\x7d\n" ++
  "\\usepackage\x7btocloft\x7d\n\n" ++
  "% ============================================\n% PAGE SETUP\n% ============================================\n" ++
  "\\geometry\x7b\n    left=25mm,\n    right=25mm,\n    top=25mm,\n    bottom=25mm\n\x7d\n\n" ++
  "% ============================================\n% PGFPLOTS CONFIGURATION\n% ============================================\n" ++
  "\\pgfplotsset\x7bcompat=1.18\x7d\n\n" ++
  "% ============================================\n% COLOR DEFINITIONS\n% ============================================\n" ++
  "\\definecolor\x7bshearpositive\x7d\x7bRGB\x7d\x7b70, 130, 180\x7d    % Steel Blue\n" ++
  "\\definecolor\x7bshearnegative\x7d\x7bRGB\x7d\x7b220, 20, 60\x7d     % Crimson Red\n" ++
  "\\definecolor\x7bmomentpositive\x7d\x7bRGB\x7d\x7b34, 139, 34\x7d    % Forest Green\n" ++
  "\\definecolor\x7bmomentnegative\x7d\x7bRGB\x7d\x7b255, 140, 0\x7d    % Dark Orange\n" ++
  "\\definecolor\x7btitleblue\x7d\x7bRGB\x7d\x7b0, 51, 102\x7d          % Dark Blue\n\n" ++
  "% ============================================\n% HYPERREF SETUP\n% ============================================\n" ++
  "\\hypersetup\x7b\n    colorlinks=true,\n    linkcolor=titleblue,\n    filecolor=magenta,      \n    urlcolor=cyan,\n" ++
  "    pdftitle=\x7bBeam Analysis Report\x7d,\n    pdfauthor=\x7bFOSSEE Project\x7d,\n\x7d\n\n" ++
  "% ============================================\n% HEADER AND FOOTER\n% ============================================\n" ++
  "\\pagestyle\x7bfancy\x7d\n" ++
  "\\fancyhf\x7b\x7d\n" ++
  "\\fancyhead[L]\x7b\\small Beam Analysis Report\x7d\n" ++
  "\\fancyhead[R]\x7b\\small \\leftmark\x7d\n" ++
  "\\fancyfoot[C]\x7b\\thepage\x7d\n" ++
  "\\renewcommand\x7b\\headrulewidth\x7d\x7b0.4pt\x7d\n" ++
  "\\renewcommand\x7b\\footrulewidth\x7d\x7b0.4pt\x7d\n\n" ++
  "% ============================================\n% TITLE FORMATTING\n% ============================================\n" ++
  "\\titleformat\x7b\\chapter\x7d[display]\n" ++
  "  \x7b\\normalfont\\huge\\bfseries\\color\x7btitleblue\x7d\x7d\n" ++
  "  \x7b\\chaptertitlename\\ \\thechapter\x7d\x7b20pt\x7d\x7b\\Huge\x7d\n\n" ++
  "\\begin\x7bdocument\x7d\n"

/-! ## `_create_title_page` (lines 128-187)

The source computes `current_date = datetime.now().strftime("%B %d, %Y")`
inside the function.  The clock read is made explicit: `currentDate` is the
formatted value `datetime.now()` produced at line 135. -/

/-- Static text before the spliced date. -/
def titlePageA : String :=
  "\n% ============================================\n% TITLE PAGE\n% ============================================\n" ++
  "\\begin\x7btitlepage\x7d\n    \\centering\n    \n    \\vspace*\x7b2cm\x7d\n    \n" ++
  "    % Title\n    \x7b\\Huge\\bfseries\\color\x7btitleblue\x7d Structural Analysis Report \\par\x7d\n    \n" ++
  "    \\vspace\x7b1cm\x7d\n    \n" ++
  "    \x7b\\LARGE\\bfseries Simply Supported Beam Analysis \\par\x7d\n    \n" ++
  "    \\vspace\x7b2cm\x7d\n    \n" ++
  "    % Decorative line\n    \\noindent\\rule\x7b\\textwidth\x7d\x7b2pt\x7d\n    \n" ++
  "    \\vspace\x7b2cm\x7d\n    \n" ++
  "    % Project Information\n    \x7b\\Large\\textbf\x7bProject:\x7d FOSSEE Beam Analysis \\par\x7d\n    \n" ++
  "    \\vspace\x7b0.5cm\x7d\n    \n" ++
  "    \x7b\\Large\\textbf\x7bDocument Type:\x7d Engineering Analysis Report \\par\x7d\n    \n" ++
  "    \\vspace\x7b0.5cm\x7d\n    \n" ++
  "    \x7b\\Large\\textbf\x7bAnalysis Method:\x7d Shear Force \\& Bending Moment Analysis \\par\x7d\n    \n" ++
  "    \\vspace\x7b3cm\x7d\n    \n" ++
  "    % Date\n    \x7b\\large\\textbf\x7bDate:\x7d "

/-- Static text after the spliced date. -/
def titlePageB : String :=
  " \\par\x7d\n    \n    \\vfill\n    \n" ++
  "    % Footer line\n    \\noindent\\rule\x7b\\textwidth\x7d\x7b1pt\x7d\n    \n" ++
  "    \\vspace\x7b0.5cm\x7d\n    \n" ++
  "    \x7b\\small Generated using Python and \\LaTeX\x7b\x7d \\par\x7d\n    \n" ++
  "\\end\x7btitlepage\x7d\n"

/-- Model of `_create_title_page` with the internal `datetime.now()` read explicit. -/
def createTitlePage (currentDate : String) : String :=
  titlePageA ++ currentDate ++ titlePageB

/-! ## `_create_toc` (lines 189-204) -/

/-- The table-of-contents block emitted by `_create_toc`. -/
def createToc : String :=
  "\n% ============================================\n% TABLE OF CONTENTS\n% ============================================\n" ++
  "\\tableofcontents\n\\thispagestyle\x7bempty\x7d\n\\newpage\n"

/-! ## `_create_introduction` (lines 206-274) -/

/-- Static text before the spliced image path. -/
def introA : String :=
  "\n% ============================================\n% INTRODUCTION\n% ============================================\n" ++
  "\\chapter\x7bIntroduction\x7d\n\n\\section\x7bOverview\x7d\n\n" ++
  "This report presents a comprehensive structural analysis of a simply supported beam \n" ++
  "subjected to a uniformly distributed load. The analysis includes the calculation and \n" ++
  "visualization of internal forces, specifically the Shear Force Diagram (SFD) and \n" ++
  "Bending Moment Diagram (BMD).\n\n" ++
  "\\section\x7bSimply Supported Beam\x7d\n\n" ++
  "A simply supported beam is a fundamental structural element that rests on two \n" ++
  "supports --- a pinned support at one end and a roller support at the other. This \n" ++
  "configuration allows the beam to:\n\n" ++
  "\\begin\x7bitemize\x7d\n" ++
  "    \\item Resist vertical loads through reaction forces at the supports\n" ++
  "    \\item Freely expand or contract due to thermal effects (roller support)\n" ++
  "    \\item Rotate freely at both support points\n" ++
  "\\end\x7bitemize\x7d\n\n" ++
  "\\subsection\x7bBeam Configuration\x7d\n\n" ++
  "The beam under analysis has the following configuration:\n\n" ++
  "\\begin\x7bfigure\x7d[H]\n    \\centering\n    \\includegraphics[width=0.85\\textwidth]\x7b"

/-- Static text between the image path and the beam length. -/
def introB : String :=
  "\x7d\n    \\caption\x7bSimply Supported Beam with Pinned and Roller Supports\x7d\n" ++
  "    \\label\x7bfig:beam_diagram\x7d\n\\end\x7bfigure\x7d\n\n" ++
  "\\textbf\x7bBeam Parameters:\x7d\n\\begin\x7bitemize\x7d\n" ++
  "    \\item \\textbf\x7bTotal Length:\x7d "

/-- Static text after the beam length. -/
def introC : String :=
  " meters\n" ++
  "    \\item \\textbf\x7bLeft Support:\x7d Pinned support (restricts horizontal and vertical displacement)\n" ++
  "    \\item \\textbf\x7bRight Support:\x7d Roller support (restricts only vertical displacement)\n" ++
  "    \\item \\textbf\x7bLoading:\x7d Uniformly distributed load\n" ++
  "\\end\x7bitemize\x7d\n\n" ++
  "\\section\x7bAnalysis Objectives\x7d\n\n" ++
  "The objectives of this structural analysis are:\n\n" ++
  "\\begin\x7benumerate\x7d\n" ++
  "    \\item Calculate shear forces at critical points along the beam\n" ++
  "    \\item Calculate bending moments at critical points along the beam\n" ++
  "    \\item Generate Shear Force Diagram (SFD)\n" ++
  "    \\item Generate Bending Moment Diagram (BMD)\n" ++
  "    \\item Identify maximum shear force and bending moment locations\n" ++
  "\\end\x7benumerate\x7d\n\n\\newpage\n"

/-- Model of `_create_introduction`: normalizes the image path separators, splices it
and `f"{self.beam_length:.1f}"`. -/
def createIntroduction (beamImagePath : String) (beamLength : Option ℚ) : String :=
  introA ++ (beamImagePath.replace "\\" "/") ++ introB ++ fmt1N beamLength ++ introC

/-! ## `_create_data_table` (lines 276-339)

The per-row loop appends a formatted data line and an `\hline` line for each
row; the Data Interpretation list splices six summary slots.  On an empty
table the `idxmax` at line 331 raises `ValueError`, so the function produces
no string at all: modelled by `none`. -/

/-- The two `+=` of one loop iteration (lines 319-320), as one chunk. -/
def dataRowLine (r : Row) : String :=
  "        " ++ fmtFixed 1 r.x ++ " & " ++ fmtFixed 2 r.shear ++ " & " ++
    fmtFixed 2 r.moment ++ " \\\\\n" ++ "        \\hline\n"

/-- The row loop of `_create_data_table` (lines 313-320), accumulator style. -/
def dataRowsLoop : List Row → String → String
  | [], acc => acc
  | r :: t, acc => dataRowsLoop t (acc ++ dataRowLine r)

/-- Static header of the Input Data chapter up to the column headings. -/
def tableHead : String :=
  "\n% ============================================\n% INPUT DATA\n% ============================================\n" ++
  "\\chapter\x7bInput Data\x7d\n\n\\section\x7bForce and Moment Data\x7d\n\n" ++
  "The following table presents the calculated values of shear force and bending \n" ++
  "moment at various positions along the beam. These values were obtained from \n" ++
  "structural analysis calculations.\n\n" ++
  "\\begin\x7btable\x7d[H]\n    \\centering\n" ++
  "    \\caption\x7bShear Force and Bending Moment Values Along the Beam\x7d\n" ++
  "    \\label\x7btab:force_data\x7d\n    \\vspace\x7b0.5cm\x7d\n" ++
  "    \\begin\x7btabular\x7d\x7b|c|c|c|\x7d\n        \\hline\n        \\rowcolor\x7btitleblue!20\x7d\n" ++
  "        \\textbf\x7bPosition (x)\x7d & \\textbf\x7bShear Force (V)\x7d & \\textbf\x7bBending Moment (M)\x7d \\\\\n" ++
  "        \\textbf\x7b[meters]\x7d & \\textbf\x7b[kN]\x7d & \\textbf\x7b[kN$\\cdot$m]\x7d \\\\\n" ++
  "        \\hline\n"

/-- Static text from the table close to the first interpretation slot. -/
def tableMidA : String :=
  "    \\end\x7btabular\x7d\n\\end\x7btable\x7d\n\n\\section\x7bData Interpretation\x7d\n\n" ++
  "From the table above, we can observe:\n\n\\begin\x7bitemize\x7d\n" ++
  "    \\item \\textbf\x7bMaximum Positive Shear Force:\x7d "

/-- Static text closing the interpretation list. -/
def tableEnd : String :=
  " m (point of maximum moment)\n\\end\x7bitemize\x7d\n\n\\newpage\n"

/-- Model of `_create_data_table`: `none` models the pandas `ValueError` raised by
`idxmax` on an empty column (line 331); otherwise the assembled chapter. -/
def createDataTable (d : List Row) : Option String :=
  match d with
  | [] => none
  | _ :: _ =>
    some (tableHead ++ dataRowsLoop d "" ++
      tableMidA ++ fmt2N (shearMax d) ++ " kN (at x = " ++ fmt1N (shearMaxX d) ++ " m)\n" ++
      "    \\item \\textbf\x7bMaximum Negative Shear Force:\x7d " ++
      fmt2N (shearMin d) ++ " kN (at x = " ++ fmt1N (shearMinX d) ++ " m)\n" ++
      "    \\item \\textbf\x7bMaximum Bending Moment:\x7d " ++
      fmt2N (momentMax d) ++ " kN$\\cdot$m (at x = " ++ fmt1N (momentMaxX d) ++ " m)\n" ++
      "    \\item \\textbf\x7bZero Shear Location:\x7d x = " ++ zeroText d ++ tableEnd)

/-! ## `_create_sfd_diagram` (lines 341-447) -/

/-- One iteration of the coordinate loop (lines 355-364): appends one line to
each accumulated series, `(x, shear)`/`(x, 0)` when `shear >= 0` and
`(x, 0)`/`(x, shear)` otherwise. -/
def sfdCoordsLoop : List Row → String × String → String × String
  | [], acc => acc
  | r :: t, (p, n) =>
    if 0 ≤ r.shear then
      sfdCoordsLoop t
        (p ++ ("            (" ++ pyStr r.x ++ ", " ++ pyStr r.shear ++ ")\n"),
         n ++ ("            (" ++ pyStr r.x ++ ", 0)\n"))
    else
      sfdCoordsLoop t
        (p ++ ("            (" ++ pyStr r.x ++ ", 0)\n"),
         n ++ ("            (" ++ pyStr r.x ++ ", " ++ pyStr r.shear ++ ")\n"))

/-- The pair `(positive_coords, negative_coords)` after the loop. -/
def sfdCoords (d : List Row) : String × String :=
  sfdCoordsLoop d ("", "")

/-- Join `",".join([str(x) for x in self.data['x']])` (lines 391 and 485). -/
def xtickJoin (d : List Row) : String :=
  String.intercalate "," (d.map fun r => pyStr r.x)

/-- Static SFD text up to the `xmax=` slot. -/
def sfdA : String :=
  "\n% ============================================\n% SHEAR FORCE DIAGRAM\n% ============================================\n" ++
  "\\chapter\x7bAnalysis Results\x7d\n\n\\section\x7bShear Force Diagram (SFD)\x7d\n\n" ++
  "The Shear Force Diagram shows the variation of internal shear force along the \n" ++
  "length of the beam. Positive shear forces are shown in \\textcolor\x7bshearpositive\x7d\x7b\\textbf\x7bblue\x7d\x7d \n" ++
  "and negative shear forces are shown in \\textcolor\x7bshearnegative\x7d\x7b\\textbf\x7bred\x7d\x7d.\n\n" ++
  "\\begin\x7bfigure\x7d[H]\n    \\centering\n    \\begin\x7btikzpicture\x7d\n        \\begin\x7baxis\x7d[\n" ++
  "            width=0.95\\textwidth,\n            height=8cm,\n" ++
  "            xlabel=\x7bPosition along beam (m)\x7d,\n            ylabel=\x7bShear Force (kN)\x7d,\n" ++
  "            title=\x7b\\textbf\x7bShear Force Diagram\x7d\x7d,\n" ++
  "            xmin=-0.5,\n            xmax="

/-- Static axis options between `xtick=\x7b...\x7d` and the positive series. -/
def sfdAxisTail : String :=
  "\x7d,\n            grid=both,\n" ++
  "            grid style=\x7bline width=0.2pt, draw=gray!30\x7d,\n" ++
  "            major grid style=\x7bline width=0.4pt, draw=gray!50\x7d,\n" ++
  "            axis lines=middle,\n            axis line style=\x7b->, thick\x7d,\n" ++
  "            legend style=\x7b\n                at=\x7b(0.98,0.98)\x7d,\n" ++
  "                anchor=north east,\n                draw=black,\n" ++
  "                fill=white,\n                font=\\small\n            \x7d,\n" ++
  "            every axis plot/.append style=\x7bthick\x7d,\n" ++
  "            ybar,\n            bar width=8pt,\n            enlarge x limits=0.05,\n" ++
  "        ]\n        \n        % Positive Shear Force (Blue)\n        \\addplot[\n" ++
  "            fill=shearpositive,\n            draw=shearpositive!80!black,\n" ++
  "        ] coordinates \x7b\n"

/-- Static text between the positive and negative SFD series. -/
def sfdBetween : String :=
  "        \x7d;\n        \\addlegendentry\x7bPositive Shear\x7d\n        \n" ++
  "        % Negative Shear Force (Red)\n        \\addplot[\n" ++
  "            fill=shearnegative,\n            draw=shearnegative!80!black,\n" ++
  "        ] coordinates \x7b\n"

/-- Static text from the negative series to the zero-line `xmax` slot. -/
def sfdZeroLine : String :=
  "        \x7d;\n        \\addlegendentry\x7bNegative Shear\x7d\n        \n" ++
  "        % Zero line\n        \\draw[black, thick, dashed] (axis cs:-0.5,0) -- (axis cs:"

/-- Static SFD closing text. -/
def sfdTail : String :=
  ",0);\n        \n        \\end\x7baxis\x7d\n    \\end\x7btikzpicture\x7d\n" ++
  "    \\caption\x7bShear Force Diagram showing the distribution of shear force along the beam\x7d\n" ++
  "    \\label\x7bfig:sfd\x7d\n\\end\x7bfigure\x7d\n\n\\subsection\x7bSFD Observations\x7d\n\n" ++
  "\\begin\x7bitemize\x7d\n" ++
  "    \\item The shear force is maximum positive at the left support\n" ++
  "    \\item The shear force decreases linearly under uniformly distributed load\n" ++
  "    \\item The shear force crosses zero at the midpoint of the beam\n" ++
  "    \\item The shear force is maximum negative at the right support\n" ++
  "    \\item The slope of the SFD equals the intensity of the distributed load\n" ++
  "\\end\x7bitemize\x7d\n\n\\newpage\n"

/-- Model of `_create_sfd_diagram`.  NaN arithmetic (`beam_length + 0.5` etc. on an
empty table) prints as `nan`, handled by `pyStrN`. -/
def createSfdDiagram (d : List Row) (beamLength : Option ℚ) : String :=
  sfdA ++ pyStrN (beamLength.map fun q => q + 1/2) ++
  ",\n            ymin=" ++ pyStrN ((shearMin d).map fun q => q - 10) ++
  ",\n            ymax=" ++ pyStrN ((shearMax d).map fun q => q + 10) ++
  ",\n            xtick=\x7b" ++ xtickJoin d ++
  sfdAxisTail ++ (sfdCoords d).1 ++ sfdBetween ++ (sfdCoords d).2 ++
  sfdZeroLine ++ pyStrN (beamLength.map fun q => q + 1/2) ++ sfdTail

/-! ## `_create_bmd_diagram` (lines 449-533) -/

/-- The BMD coordinate loop (lines 459-463). -/
def bmdCoordsLoop : List Row → String → String
  | [], acc => acc
  | r :: t, acc =>
    bmdCoordsLoop t (acc ++ ("            (" ++ pyStr r.x ++ ", " ++ pyStr r.moment ++ ")\n"))

/-- Static BMD text up to the `xmax=` slot. -/
def bmdA : String :=
  "\n\\section\x7bBending Moment Diagram (BMD)\x7d\n\n" ++
  "The Bending Moment Diagram shows the variation of internal bending moment along \n" ++
  "the length of the beam. Positive (sagging) moments are shown in \n" ++
  "\\textcolor\x7bmomentpositive\x7d\x7b\\textbf\x7bgreen\x7d\x7d.\n\n" ++
  "\\begin\x7bfigure\x7d[H]\n    \\centering\n    \\begin\x7btikzpicture\x7d\n        \\begin\x7baxis\x7d[\n" ++
  "            width=0.95\\textwidth,\n            height=8cm,\n" ++
  "            xlabel=\x7bPosition along beam (m)\x7d,\n            ylabel=\x7bBending Moment (kN$\\cdot$m)\x7d,\n" ++
  "            title=\x7b\\textbf\x7bBending Moment Diagram\x7d\x7d,\n" ++
  "            xmin=-0.5,\n            xmax="

/-- Static axis options between `xtick=\x7b...\x7d` and the moment series. -/
def bmdAxisTail : String :=
  "\x7d,\n            grid=both,\n" ++
  "            grid style=\x7bline width=0.2pt, draw=gray!30\x7d,\n" ++
  "            major grid style=\x7bline width=0.4pt, draw=gray!50\x7d,\n" ++
  "            axis lines=middle,\n            axis line style=\x7b->, thick\x7d,\n" ++
  "            legend style=\x7b\n                at=\x7b(0.98,0.98)\x7d,\n" ++
  "                anchor=north east,\n                draw=black,\n" ++
  "                fill=white,\n                font=\\small\n            \x7d,\n" ++
  "            every axis plot/.append style=\x7bthick\x7d,\n" ++
  "            ybar,\n            bar width=8pt,\n            enlarge x limits=0.05,\n" ++
  "        ]\n        \n        % Bending Moment (Green)\n        \\addplot[\n" ++
  "            fill=momentpositive,\n            draw=momentpositive!80!black,\n" ++
  "        ] coordinates \x7b\n"

/-- Static text from the moment series to the zero-line `xmax` slot. -/
def bmdZeroLine : String :=
  "        \x7d;\n        \\addlegendentry\x7bBending Moment (Sagging)\x7d\n        \n" ++
  "        % Zero line\n        \\draw[black, thick, dashed] (axis cs:-0.5,0) -- (axis cs:"

/-- Static text from the zero line to the midspan-position slot. -/
def bmdObsA : String :=
  ",0);\n        \n        \\end\x7baxis\x7d\n    \\end\x7btikzpicture\x7d\n" ++
  "    \\caption\x7bBending Moment Diagram showing the distribution of bending moment along the beam\x7d\n" ++
  "    \\label\x7bfig:bmd\x7d\n\\end\x7bfigure\x7d\n\n\\subsection\x7bBMD Observations\x7d\n\n" ++
  "\\begin\x7bitemize\x7d\n" ++
  "    \\item The bending moment is zero at both supports (simply supported conditions)\n" ++
  "    \\item The bending moment is maximum at the center of the beam (x = "

/-- Static BMD closing text. -/
def bmdTail : String :=
  " kN$\\cdot$m\n" ++
  "    \\item The BMD follows a parabolic curve for uniformly distributed loads\n" ++
  "    \\item The slope of the BMD at any point equals the shear force at that point\n" ++
  "\\end\x7bitemize\x7d\n\n\\newpage\n"

/-- Model of `_create_bmd_diagram`. -/
def createBmdDiagram (d : List Row) (beamLength : Option ℚ) : String :=
  bmdA ++ pyStrN (beamLength.map fun q => q + 1/2) ++
  ",\n            ymin=-10,\n            ymax=" ++ pyStrN ((momentMax d).map fun q => q + 20) ++
  ",\n            xtick=\x7b" ++ xtickJoin d ++
  bmdAxisTail ++ bmdCoordsLoop d "" ++
  bmdZeroLine ++ pyStrN (beamLength.map fun q => q + 1/2) ++ bmdObsA ++
  fmt1N (beamLength.map fun q => q / 2) ++ " m)\n    \\item Maximum bending moment value: " ++
  fmt2N (momentMax d) ++ bmdTail

/-! ## `_create_conclusion` (lines 535-604)

Line 542 also computes `max_shear = self.data['Shear force'].abs().max()`,
but that value is never used in the emitted text, so it has no embedding.
The Location column of the summary table does not consult the rows: the
max-positive-shear location is the fixed literal `0.0` (line 565), the
max-negative-shear location is `f"{self.beam_length:.1f}"` (line 567) and
the max-moment location is `f"{self.beam_length/2:.1f}"` (line 569). -/

/-- Value cell of the `Maximum Positive Shear` summary row (line 565). -/
def conclMaxPosShearVal (d : List Row) : String := fmt2N (shearMax d)

/-- Location cell of the `Maximum Positive Shear` summary row: the literal
`0.0` hardcoded inside the template string at line 565. -/
def conclMaxPosShearLoc : String := "0.0"

/-- Value cell of the `Maximum Negative Shear` summary row (line 567). -/
def conclMaxNegShearVal (d : List Row) : String := fmt2N (shearMin d)

/-- Location cell of the `Maximum Negative Shear` summary row (line 567):
`f"{self.beam_length:.1f}"`, independent of the rows. -/
def conclMaxNegShearLoc (beamLength : Option ℚ) : String := fmt1N beamLength

/-- Value cell of the `Maximum Bending Moment` summary row (line 569). -/
def conclMaxMomentVal (d : List Row) : String := fmt2N (momentMax d)

/-- Location cell of the `Maximum Bending Moment` summary row (line 569):
`f"{self.beam_length/2:.1f}"`, independent of the rows. -/
def conclMaxMomentLoc (beamLength : Option ℚ) : String :=
  fmt1N (beamLength.map fun q => q / 2)

/-- Static conclusion text up to the first summary value. -/
def conclA : String :=
  "\n% ============================================\n% CONCLUSION\n% ============================================\n" ++
  "\\chapter\x7bConclusion\x7d\n\n\\section\x7bSummary of Results\x7d\n\n" ++
  "This structural analysis report has presented a comprehensive analysis of a simply \n" ++
  "supported beam with the following key findings:\n\n" ++
  "\\begin\x7btable\x7d[H]\n    \\centering\n    \\caption\x7bSummary of Critical Values\x7d\n" ++
  "    \\vspace\x7b0.5cm\x7d\n    \\begin\x7btabular\x7d\x7b|l|c|c|\x7d\n        \\hline\n" ++
  "        \\rowcolor\x7btitleblue!20\x7d\n" ++
  "        \\textbf\x7bParameter\x7d & \\textbf\x7bValue\x7d & \\textbf\x7bLocation\x7d \\\\\n" ++
  "        \\hline\n        Maximum Positive Shear & "

/-- Static conclusion closing text. -/
def conclTail : String :=
  " m \\\\\n        \\hline\n    \\end\x7btabular\x7d\n\\end\x7btable\x7d\n\n" ++
  "\\section\x7bDesign Recommendations\x7d\n\n" ++
  "Based on the analysis results, the following recommendations are made for the \n" ++
  "design of this simply supported beam:\n\n\\begin\x7benumerate\x7d\n" ++
  "    \\item \\textbf\x7bShear Reinforcement:\x7d Provide adequate shear reinforcement near \n" ++
  "          the supports where shear forces are maximum.\n    \n" ++
  "    \\item \\textbf\x7bFlexural Reinforcement:\x7d Provide maximum flexural reinforcement \n" ++
  "          at the midspan where the bending moment is maximum.\n    \n" ++
  "    \\item \\textbf\x7bDeflection Check:\x7d Verify that the beam deflection under service \n" ++
  "          loads is within acceptable limits.\n    \n" ++
  "    \\item \\textbf\x7bSupport Design:\x7d Design the supports to safely transfer the \n" ++
  "          reaction forces to the foundation.\n\\end\x7benumerate\x7d\n\n" ++
  "\\section\x7bReport Generation\x7d\n\n" ++
  "This report was automatically generated using:\n\\begin\x7bitemize\x7d\n" ++
  "    \\item Python for data processing and LaTeX generation\n" ++
  "    \\item TikZ/PGFPlots for vector graphics diagrams\n" ++
  "    \\item \\LaTeX\x7b\x7d for professional document formatting\n" ++
  "\\end\x7bitemize\x7d\n\n\\end\x7bdocument\x7d\n"

/-- Model of `_create_conclusion`. -/
def createConclusion (d : List Row) (beamLength : Option ℚ) : String :=
  conclA ++ conclMaxPosShearVal d ++ " kN & x = " ++ conclMaxPosShearLoc ++
  " m \\\\\n        \\hline\n        Maximum Negative Shear & " ++
  conclMaxNegShearVal d ++ " kN & x = " ++ conclMaxNegShearLoc beamLength ++
  " m \\\\\n        \\hline\n        Maximum Bending Moment & " ++
  conclMaxMomentVal d ++ " kN$\\cdot$m & x = " ++ conclMaxMomentLoc beamLength ++
  conclTail

/-! ## `generate_report` (lines 606-671), up to the write of the `.tex` file

Everything after `latex_content` is assembled — writing the file, invoking
`pdflatex` twice and deleting auxiliary files — is OS interaction outside
the document-assembly core.  `none` propagates the `ValueError` raised by
`_create_data_table` on an empty table: no markup is produced then. -/

/-- The `latex_content` string assembled by `generate_report`.  `currentDate`
is the value `datetime.now().strftime("%B %d, %Y")` read inside
`_create_title_page` during the run. -/
def generateLatexContent (rows : List Row) (beamImagePath currentDate : String) :
    Option String :=
  match createDataTable (loadData rows).data with
  | none => none
  | some tbl =>
    some (createPreamble ++ createTitlePage currentDate ++ createToc ++
      createIntroduction beamImagePath (loadData rows).beamLength ++ tbl ++
      createSfdDiagram (loadData rows).data (loadData rows).beamLength ++
      createBmdDiagram (loadData rows).data (loadData rows).beamLength ++
      createConclusion (loadData rows).data (loadData rows).beamLength)

/-! ## Claim-side series descriptions for the SFD chart -/

/-- One rendered coordinate line of an SFD series. -/
def coordLine (x : ℚ) (vtext : String) : String :=
  "            (" ++ pyStr x ++ ", " ++ vtext ++ ")\n"

/-- The positive series holds `(x, shear)` where `shear ≥ 0`, `(x, 0)` elsewhere. -/
def posSeriesLine (r : Row) : String :=
  coordLine r.x (if 0 ≤ r.shear then pyStr r.shear else "0")

/-- The negative series holds `(x, shear)` where `shear < 0`, `(x, 0)` elsewhere. -/
def negSeriesLine (r : Row) : String :=
  coordLine r.x (if r.shear < 0 then pyStr r.shear else "0")

/-! ## Decomposition of the assembled document around the date slot -/

/-- All markup emitted before the spliced date. -/
def genDatePre : String := createPreamble ++ titlePageA

/-- All markup emitted after the spliced date, for a given data table text. -/
def genDatePost (rows : List Row) (beamImagePath tbl : String) : String :=
  titlePageB ++ (createToc ++ (createIntroduction beamImagePath (loadData rows).beamLength ++
    (tbl ++ (createSfdDiagram (loadData rows).data (loadData rows).beamLength ++
      (createBmdDiagram (loadData rows).data (loadData rows).beamLength ++
        createConclusion (loadData rows).data (loadData rows).beamLength)))))

/-! ## Helper lemmas: running maxima and minima -/

lemma foldl_max_shift (t : List ℚ) : ∀ a b : ℚ, t.foldl max (max a b) = max a (t.foldl max b) := by
  induction t with
  | nil => intro a b; rfl
  | cons c t ih =>
    intro a b
    simp only [List.foldl_cons]
    rw [max_assoc, ih]

lemma foldl_min_shift (t : List ℚ) : ∀ a b : ℚ, t.foldl min (min a b) = min a (t.foldl min b) := by
  induction t with
  | nil => intro a b; rfl
  | cons c t ih =>
    intro a b
    simp only [List.foldl_cons]
    rw [min_assoc, ih]

lemma foldl_max_mem (t : List ℚ) : ∀ a : ℚ, t.foldl max a = a ∨ t.foldl max a ∈ t := by
  induction t with
  | nil => intro a; exact Or.inl rfl
  | cons c t ih =>
    intro a
    simp only [List.foldl_cons]
    rcases ih (max a c) with h | h
    · rcases max_choice a c with hm | hm
      · exact Or.inl (h.trans hm)
      · rw [h, hm]; exact Or.inr (List.mem_cons_self c t)
    · exact Or.inr (List.mem_cons_of_mem c h)

lemma foldl_min_mem (t : List ℚ) : ∀ a : ℚ, t.foldl min a = a ∨ t.foldl min a ∈ t := by
  induction t with
  | nil => intro a; exact Or.inl rfl
  | cons c t ih =>
    intro a
    simp only [List.foldl_cons]
    rcases ih (min a c) with h | h
    · rcases min_choice a c with hm | hm
      · exact Or.inl (h.trans hm)
      · rw [h, hm]; exact Or.inr (List.mem_cons_self c t)
    · exact Or.inr (List.mem_cons_of_mem c h)

lemma le_foldl_max (t : List ℚ) : ∀ a : ℚ, a ≤ t.foldl max a := by
  induction t with
  | nil => intro a; exact le_refl a
  | cons c t ih =>
    intro a
    simp only [List.foldl_cons]
    exact le_trans (le_max_left a c) (ih (max a c))

lemma foldl_min_le (t : List ℚ) : ∀ a : ℚ, t.foldl min a ≤ a := by
  induction t with
  | nil => intro a; exact le_refl a
  | cons c t ih =>
    intro a
    simp only [List.foldl_cons]
    exact le_trans (ih (min a c)) (min_le_left a c)

lemma mem_le_foldl_max (t : List ℚ) : ∀ a y : ℚ, y ∈ t → y ≤ t.foldl max a := by
  induction t with
  | nil => intro a y h; cases h
  | cons c t ih =>
    intro a y h
    simp only [List.foldl_cons]
    rcases List.mem_cons.mp h with h | h
    · subst h
      exact le_trans (le_max_right a y) (le_foldl_max t (max a y))
    · exact ih (max a c) y h

lemma foldl_min_le_mem (t : List ℚ) : ∀ a y : ℚ, y ∈ t → t.foldl min a ≤ y := by
  induction t with
  | nil => intro a y h; cases h
  | cons c t ih =>
    intro a y h
    simp only [List.foldl_cons]
    rcases List.mem_cons.mp h with h | h
    · subst h
      exact le_trans (foldl_min_le t (min a y)) (min_le_right a y)
    · exact ih (min a c) y h

/-- The modelled `Series.max()` of a nonempty column is attained and bounds the column. -/
lemma pandasMax_spec (a : ℚ) (t : List ℚ) :
    ∃ m, pandasMax (a :: t) = some m ∧ m ∈ a :: t ∧ ∀ y ∈ a :: t, y ≤ m := by
  refine ⟨t.foldl max a, rfl, ?_, ?_⟩
  · rcases foldl_max_mem t a with h | h
    · rw [h]; exact List.mem_cons_self a t
    · exact List.mem_cons_of_mem a h
  · intro y hy
    rcases List.mem_cons.mp hy with h | h
    · subst h; exact le_foldl_max t y
    · exact mem_le_foldl_max t a y h

/-- The modelled `Series.min()` of a nonempty column is attained and bounds the column. -/
lemma pandasMin_spec (a : ℚ) (t : List ℚ) :
    ∃ m, pandasMin (a :: t) = some m ∧ m ∈ a :: t ∧ ∀ y ∈ a :: t, m ≤ y := by
  refine ⟨t.foldl min a, rfl, ?_, ?_⟩
  · rcases foldl_min_mem t a with h | h
    · rw [h]; exact List.mem_cons_self a t
    · exact List.mem_cons_of_mem a h
  · intro y hy
    rcases List.mem_cons.mp hy with h | h
    · subst h; exact foldl_min_le t y
    · exact foldl_min_le_mem t a y h

lemma pandasMax_cons_some (a m : ℚ) (t : List ℚ) (h : pandasMax t = some m) :
    pandasMax (a :: t) = some (max a m) := by
  cases t with
  | nil => cases h
  | cons b t2 =>
    simp only [pandasMax, Option.some.injEq] at h ⊢
    rw [List.foldl_cons, foldl_max_shift, h]

lemma pandasMin_cons_some (a m : ℚ) (t : List ℚ) (h : pandasMin t = some m) :
    pandasMin (a :: t) = some (min a m) := by
  cases t with
  | nil => cases h
  | cons b t2 =>
    simp only [pandasMin, Option.some.injEq] at h ⊢
    rw [List.foldl_cons, foldl_min_shift, h]

/-- The modelled `Series.idxmax()` of a nonempty column finds the first index attaining
the maximum: the value there is the column maximum and every earlier entry
is strictly smaller. -/
lemma idxmax_spec (t : List ℚ) : ∀ a : ℚ,
    ∃ i m, idxmax (a :: t) = some i ∧ pandasMax (a :: t) = some m ∧
      (a :: t).get? i = some m ∧
      ∀ j y, j < i → (a :: t).get? j = some y → y < m := by
  induction t with
  | nil =>
    intro a
    exact ⟨0, a, rfl, rfl, rfl, fun j y hj _ => absurd hj (Nat.not_lt_zero j)⟩
  | cons c t3 ih =>
    intro a
    obtain ⟨i, m, hix, hpm, hget, hlt⟩ := ih c
    have hdef : idxmax (a :: c :: t3) =
        match idxmax (c :: t3), pandasMax (c :: t3) with
        | some j, some m => if a < m then some (j + 1) else some 0
        | _, _ => some 0 := rfl
    simp only [hix, hpm] at hdef
    by_cases ha : a < m
    · refine ⟨i + 1, m, ?_, ?_, ?_, ?_⟩
      · rw [hdef, if_pos ha]
      · rw [pandasMax_cons_some a m (c :: t3) hpm, max_eq_right (le_of_lt ha)]
      · simpa using hget
      · intro j y hj hgy
        cases j with
        | zero =>
          simp only [List.get?_cons_zero, Option.some.injEq] at hgy
          rw [hgy] at ha; exact ha
        | succ k =>
          simp only [List.get?_cons_succ] at hgy
          exact hlt k y (Nat.lt_of_succ_lt_succ hj) hgy
    · refine ⟨0, a, ?_, ?_, rfl, fun j y hj _ => absurd hj (Nat.not_lt_zero j)⟩
      · rw [hdef, if_neg ha]
      · rw [pandasMax_cons_some a m (c :: t3) hpm, max_eq_left (not_lt.mp ha)]

/-- The modelled `Series.idxmin()` of a nonempty column finds the first index attaining
the minimum. -/
lemma idxmin_spec (t : List ℚ) : ∀ a : ℚ,
    ∃ i m, idxmin (a :: t) = some i ∧ pandasMin (a :: t) = some m ∧
      (a :: t).get? i = some m ∧
      ∀ j y, j < i → (a :: t).get? j = some y → m < y := by
  induction t with
  | nil =>
    intro a
    exact ⟨0, a, rfl, rfl, rfl, fun j y hj _ => absurd hj (Nat.not_lt_zero j)⟩
  | cons c t3 ih =>
    intro a
    obtain ⟨i, m, hix, hpm, hget, hlt⟩ := ih c
    have hdef : idxmin (a :: c :: t3) =
        match idxmin (c :: t3), pandasMin (c :: t3) with
        | some j, some m => if a > m then some (j + 1) else some 0
        | _, _ => some 0 := rfl
    simp only [hix, hpm] at hdef
    by_cases ha : a > m
    · refine ⟨i + 1, m, ?_, ?_, ?_, ?_⟩
      · rw [hdef, if_pos ha]
      · rw [pandasMin_cons_some a m (c :: t3) hpm, min_eq_right (le_of_lt ha)]
      · simpa using hget
      · intro j y hj hgy
        cases j with
        | zero =>
          simp only [List.get?_cons_zero, Option.some.injEq] at hgy
          rw [hgy] at ha; exact ha
        | succ k =>
          simp only [List.get?_cons_succ] at hgy
          exact hlt k y (Nat.lt_of_succ_lt_succ hj) hgy
    · refine ⟨0, a, ?_, ?_, rfl, fun j y hj _ => absurd hj (Nat.not_lt_zero j)⟩
      · rw [hdef, if_neg ha]
      · rw [pandasMin_cons_some a m (c :: t3) hpm, min_eq_left (not_lt.mp ha)]

/-! ## Helper lemmas: string accumulation loops -/

lemma string_foldl_append (l : List String) :
    ∀ a : String, List.foldl (fun r s => r ++ s) a l = a ++ List.foldl (fun r s => r ++ s) "" l := by
  induction l with
  | nil => intro a; rw [List.foldl_nil, List.foldl_nil, String.append_empty]
  | cons b t ih =>
    intro a
    rw [List.foldl_cons, List.foldl_cons, ih (a ++ b), ih ("" ++ b),
      String.empty_append, String.append_assoc]

lemma join_cons_eq (a : String) (l : List String) :
    String.join (a :: l) = a ++ String.join l := by
  show List.foldl (fun r s => r ++ s) ("" ++ a) l = a ++ List.foldl (fun r s => r ++ s) "" l
  rw [String.empty_append, string_foldl_append]

/-- The row loop of `_create_data_table` appends exactly one formatted
chunk per row, in row order. -/
lemma dataRowsLoop_eq (d : List Row) :
    ∀ acc, dataRowsLoop d acc = acc ++ String.join (d.map dataRowLine) := by
  induction d with
  | nil => intro acc; show acc = acc ++ String.join []; rw [show String.join [] = "" from rfl, String.append_empty]
  | cons r t ih =>
    intro acc
    show dataRowsLoop t (acc ++ dataRowLine r) = acc ++ String.join ((r :: t).map dataRowLine)
    rw [ih, List.map_cons, join_cons_eq, String.append_assoc]


lemma coordLine_zero (x : ℚ) :
    "            (" ++ pyStr x ++ ", 0)\n" = coordLine x "0" := by
  rw [show (", 0)\n" : String) = ", " ++ ("0" ++ ")\n") from rfl]
  simp only [coordLine, String.append_assoc]

lemma coordLine_val (x v : ℚ) :
    "            (" ++ pyStr x ++ ", " ++ pyStr v ++ ")\n" = coordLine x (pyStr v) := by
  rw [coordLine]

/-- The SFD coordinate loop builds the two parallel series row by row. -/
lemma sfdCoordsLoop_eq (d : List Row) :
    ∀ p n, sfdCoordsLoop d (p, n) =
      (p ++ String.join (d.map posSeriesLine), n ++ String.join (d.map negSeriesLine)) := by
  induction d with
  | nil =>
    intro p n
    show (p, n) = _
    rw [List.map_nil, List.map_nil, show String.join [] = "" from rfl,
      String.append_empty, String.append_empty]
  | cons r t ih =>
    intro p n
    by_cases hs : 0 ≤ r.shear
    · show (if 0 ≤ r.shear then
          sfdCoordsLoop t
            (p ++ ("            (" ++ pyStr r.x ++ ", " ++ pyStr r.shear ++ ")\n"),
             n ++ ("            (" ++ pyStr r.x ++ ", 0)\n"))
        else
          sfdCoordsLoop t
            (p ++ ("            (" ++ pyStr r.x ++ ", 0)\n"),
             n ++ ("            (" ++ pyStr r.x ++ ", " ++ pyStr r.shear ++ ")\n"))) = _
      rw [if_pos hs, ih, coordLine_zero, coordLine_val]
      have hpos : posSeriesLine r = coordLine r.x (pyStr r.shear) := by
        rw [posSeriesLine, if_pos hs]
      have hneg : negSeriesLine r = coordLine r.x "0" := by
        rw [negSeriesLine, if_neg (not_lt.mpr hs)]
      rw [List.map_cons, List.map_cons, join_cons_eq, join_cons_eq, hpos, hneg,
        String.append_assoc, String.append_assoc]
    · show (if 0 ≤ r.shear then
          sfdCoordsLoop t
            (p ++ ("            (" ++ pyStr r.x ++ ", " ++ pyStr r.shear ++ ")\n"),
             n ++ ("            (" ++ pyStr r.x ++ ", 0)\n"))
        else
          sfdCoordsLoop t
            (p ++ ("            (" ++ pyStr r.x ++ ", 0)\n"),
             n ++ ("            (" ++ pyStr r.x ++ ", " ++ pyStr r.shear ++ ")\n"))) = _
      rw [if_neg hs, ih, coordLine_zero, coordLine_val]
      have hpos : posSeriesLine r = coordLine r.x "0" := by
        rw [posSeriesLine, if_neg hs]
      have hneg : negSeriesLine r = coordLine r.x (pyStr r.shear) := by
        rw [negSeriesLine, if_pos (lt_of_not_ge hs)]
      rw [List.map_cons, List.map_cons, join_cons_eq, join_cons_eq, hpos, hneg,
        String.append_assoc, String.append_assoc]

/-! ## Helper lemmas: the exact-zero row lookup -/

lemma contains_zero_iff (d : List Row) :
    ((d.map Row.shear).contains 0 = true) ↔ ∃ r ∈ d, r.shear = 0 := by
  simp [List.contains]

lemma find?_zero_exists (d : List Row) (h : ∃ r ∈ d, r.shear = 0) :
    ∃ r, d.find? (fun x => x.shear == 0) = some r ∧ r ∈ d ∧ r.shear = 0 := by
  induction d with
  | nil => obtain ⟨r, hr, _⟩ := h; cases hr
  | cons a t ih =>
    by_cases ha : a.shear = 0
    · exact ⟨a, List.find?_cons_of_pos t (by simpa using ha), List.mem_cons_self a t, ha⟩
    · obtain ⟨r, hr, hz⟩ := h
      have hrt : r ∈ t := by
        rcases List.mem_cons.mp hr with he | ht
        · subst he; exact absurd hz ha
        · exact ht
      obtain ⟨s, hfind, hmem, hsz⟩ := ih ⟨r, hrt, hz⟩
      exact ⟨s, by rw [List.find?_cons_of_neg t (by simpa using ha)]; exact hfind,
        List.mem_cons_of_mem a hmem, hsz⟩

lemma find?_zero_first (d : List Row) : ∀ (i : Nat) (r : Row),
    d.get? i = some r → r.shear = 0 →
    (∀ j s, j < i → d.get? j = some s → s.shear ≠ 0) →
    d.find? (fun x => x.shear == 0) = some r := by
  induction d with
  | nil => intro i r hget; cases hget
  | cons a t ih =>
    intro i r hget hz hfirst
    cases i with
    | zero =>
      simp only [List.get?_cons_zero, Option.some.injEq] at hget
      subst hget
      exact List.find?_cons_of_pos t (by simpa using hz)
    | succ k =>
      have ha : a.shear ≠ 0 := hfirst 0 a (Nat.succ_pos k) rfl
      rw [List.find?_cons_of_neg t (by simpa using ha)]
      simp only [List.get?_cons_succ] at hget
      exact ih k r hget hz
        (fun j s hj hg => hfirst (j + 1) s (Nat.succ_lt_succ hj) (by simpa using hg))

/-- The generated markup splices the internally read date between two pieces
that do not depend on it. -/
lemma gen_splice (rows : List Row) (img c : String) :
    generateLatexContent rows img c =
      (createDataTable rows).map fun tbl => genDatePre ++ (c ++ genDatePost rows img tbl) := by
  simp only [generateLatexContent, loadData]
  cases hd : createDataTable rows with
  | none => rfl
  | some tbl =>
    simp only [Option.map_some']
    simp only [createTitlePage, genDatePre, genDatePost, loadData, String.append_assoc]

/-! ## Helper lemmas: column extremes over rows -/

/-- Lemma: `pandasMax` over a mapped nonempty row list is attained by a row and
bounds every row. -/
lemma rows_max_spec (f : Row → ℚ) (a : Row) (t : List Row) :
    ∃ m, pandasMax ((a :: t).map f) = some m ∧
      (∃ r ∈ a :: t, f r = m) ∧ ∀ r ∈ a :: t, f r ≤ m := by
  obtain ⟨m, hm, hmem, hb⟩ := pandasMax_spec (f a) (t.map f)
  refine ⟨m, hm, ?_, ?_⟩
  · rcases List.mem_cons.mp hmem with h | h
    · exact ⟨a, List.mem_cons_self a t, h.symm⟩
    · obtain ⟨r, hr, hrx⟩ := List.mem_map.mp h
      exact ⟨r, List.mem_cons_of_mem a hr, hrx⟩
  · intro r hr
    rcases List.mem_cons.mp hr with h | h
    · subst h; exact hb (f r) (List.mem_cons_self (f r) (t.map f))
    · exact hb (f r) (List.mem_cons_of_mem (f a) (List.mem_map_of_mem f h))

/-- Lemma: `pandasMin` over a mapped nonempty row list is attained by a row and
bounds every row from below. -/
lemma rows_min_spec (f : Row → ℚ) (a : Row) (t : List Row) :
    ∃ m, pandasMin ((a :: t).map f) = some m ∧
      (∃ r ∈ a :: t, f r = m) ∧ ∀ r ∈ a :: t, m ≤ f r := by
  obtain ⟨m, hm, hmem, hb⟩ := pandasMin_spec (f a) (t.map f)
  refine ⟨m, hm, ?_, ?_⟩
  · rcases List.mem_cons.mp hmem with h | h
    · exact ⟨a, List.mem_cons_self a t, h.symm⟩
    · obtain ⟨r, hr, hrx⟩ := List.mem_map.mp h
      exact ⟨r, List.mem_cons_of_mem a hr, hrx⟩
  · intro r hr
    rcases List.mem_cons.mp hr with h | h
    · subst h; exact hb (f r) (List.mem_cons_self (f r) (t.map f))
    · exact hb (f r) (List.mem_cons_of_mem (f a) (List.mem_map_of_mem f h))

/-- Lemma: `idxmax`-based position lookup over a mapped nonempty row list: the
first row attaining the column maximum is found, and its position is what
`data.loc[idx, 'x']` yields. -/
lemma interp_max_spec (f : Row → ℚ) (a : Row) (t : List Row) :
    ∃ i r, (a :: t).get? i = some r ∧
      pandasMax ((a :: t).map f) = some (f r) ∧
      (idxmax ((a :: t).map f)).bind (fun k => ((a :: t).get? k).map Row.x) = some r.x ∧
      (∀ s ∈ a :: t, f s ≤ f r) ∧
      ∀ j s, j < i → (a :: t).get? j = some s → f s < f r := by
  obtain ⟨i, m, hix, hpm, hget, hlt⟩ := idxmax_spec (t.map f) (f a)
  have hget2 : ((a :: t).map f).get? i = some m := hget
  rw [List.get?_map] at hget2
  cases hr : (a :: t).get? i with
  | none => rw [hr] at hget2; cases hget2
  | some r =>
    rw [hr] at hget2
    simp only [Option.map_some', Option.some.injEq] at hget2
    refine ⟨i, r, hr, ?_, ?_, ?_, ?_⟩
    · rw [List.map_cons, hpm, hget2]
    · rw [List.map_cons, hix]
      show ((a :: t).get? i).map Row.x = some r.x
      rw [hr]; rfl
    · intro s hs
      obtain ⟨m2, hm2, _, hb⟩ := rows_max_spec f a t
      rw [List.map_cons, hpm] at hm2
      rw [hget2, Option.some.inj hm2]
      exact hb s hs
    · intro j s hj hgs
      rw [hget2]
      refine hlt j (f s) hj ?_
      have h3 : (List.map f (a :: t)).get? j = ((a :: t).get? j).map f := List.get?_map f (a :: t) j
      rw [List.map_cons] at h3
      rw [h3, hgs]; rfl

/-- Lemma: `idxmin`-based position lookup over a mapped nonempty row list. -/
lemma interp_min_spec (f : Row → ℚ) (a : Row) (t : List Row) :
    ∃ i r, (a :: t).get? i = some r ∧
      pandasMin ((a :: t).map f) = some (f r) ∧
      (idxmin ((a :: t).map f)).bind (fun k => ((a :: t).get? k).map Row.x) = some r.x ∧
      (∀ s ∈ a :: t, f r ≤ f s) ∧
      ∀ j s, j < i → (a :: t).get? j = some s → f r < f s := by
  obtain ⟨i, m, hix, hpm, hget, hlt⟩ := idxmin_spec (t.map f) (f a)
  have hget2 : ((a :: t).map f).get? i = some m := hget
  rw [List.get?_map] at hget2
  cases hr : (a :: t).get? i with
  | none => rw [hr] at hget2; cases hget2
  | some r =>
    rw [hr] at hget2
    simp only [Option.map_some', Option.some.injEq] at hget2
    refine ⟨i, r, hr, ?_, ?_, ?_, ?_⟩
    · rw [List.map_cons, hpm, hget2]
    · rw [List.map_cons, hix]
      show ((a :: t).get? i).map Row.x = some r.x
      rw [hr]; rfl
    · intro s hs
      obtain ⟨m2, hm2, _, hb⟩ := rows_min_spec f a t
      rw [List.map_cons, hpm] at hm2
      rw [hget2, Option.some.inj hm2]
      exact hb s hs
    · intro j s hj hgs
      rw [hget2]
      refine hlt j (f s) hj ?_
      have h3 : (List.map f (a :: t)).get? j = ((a :: t).get? j).map f := List.get?_map f (a :: t) j
      rw [List.map_cons] at h3
      rw [h3, hgs]; rfl

/-! ## Helper lemmas: fixed-point formatting shape -/

lemma digitChar_length (k : Nat) : (digitChar k).length = 1 := rfl

lemma decDigitsFixed_length (d : Nat) : ∀ m, (decDigitsFixed d m).length = d := by
  induction d with
  | zero => intro m; rfl
  | succ k ih =>
    intro m
    show (decDigitsFixed k (m / 10) ++ digitChar (m % 10)).length = k + 1
    rw [String.length_append, ih (m / 10), digitChar_length]

/-! ## The claims -/

/-- C9: for every non-empty dataset, the derived beam length equals the
maximum position value over all rows: it is the position of some row, and
no row lies beyond it. -/
theorem claim_C9 (a : Row) (t : List Row) :
    ∃ m, (loadData (a :: t)).beamLength = some m ∧
      (∃ r ∈ a :: t, r.x = m) ∧ ∀ r ∈ a :: t, r.x ≤ m := by
  obtain ⟨m, hm, hmem, hb⟩ := rows_max_spec Row.x a t
  exact ⟨m, hm, hmem, hb⟩

/-- C9 witness: the beam length of the spec example dataset
`[(0,50,0), (2,50,100), (4,50,0)]` is 4. -/
theorem claim_C9_witness :
    ∃ m, (loadData [Row.mk 0 50 0, Row.mk 2 50 100, Row.mk 4 50 0]).beamLength = some m ∧
      (∃ r ∈ [Row.mk 0 50 0, Row.mk 2 50 100, Row.mk 4 50 0], r.x = m) ∧
      ∀ r ∈ [Row.mk 0 50 0, Row.mk 2 50 100, Row.mk 4 50 0], r.x ≤ m :=
  claim_C9 (Row.mk 0 50 0) [Row.mk 2 50 100, Row.mk 4 50 0]

/-- C6: for every non-empty dataset, the Data Interpretation section pairs
each extreme value (max shear, min shear, max moment) with the position of a
row attaining it, and that row is the first such row: every earlier row is
strictly on the wrong side of the extreme. -/
theorem claim_C6 (a : Row) (t : List Row) :
    (∃ i r, (a :: t).get? i = some r ∧ shearMax (a :: t) = some r.shear ∧
      shearMaxX (a :: t) = some r.x ∧ (∀ s ∈ a :: t, s.shear ≤ r.shear) ∧
      ∀ j s, j < i → (a :: t).get? j = some s → s.shear < r.shear) ∧
    (∃ i r, (a :: t).get? i = some r ∧ shearMin (a :: t) = some r.shear ∧
      shearMinX (a :: t) = some r.x ∧ (∀ s ∈ a :: t, r.shear ≤ s.shear) ∧
      ∀ j s, j < i → (a :: t).get? j = some s → r.shear < s.shear) ∧
    (∃ i r, (a :: t).get? i = some r ∧ momentMax (a :: t) = some r.moment ∧
      momentMaxX (a :: t) = some r.x ∧ (∀ s ∈ a :: t, s.moment ≤ r.moment) ∧
      ∀ j s, j < i → (a :: t).get? j = some s → s.moment < r.moment) := by
  refine ⟨?_, ?_, ?_⟩
  · obtain ⟨i, r, h1, h2, h3, h4, h5⟩ := interp_max_spec Row.shear a t
    exact ⟨i, r, h1, h2, h3, h4, h5⟩
  · obtain ⟨i, r, h1, h2, h3, h4, h5⟩ := interp_min_spec Row.shear a t
    exact ⟨i, r, h1, h2, h3, h4, h5⟩
  · obtain ⟨i, r, h1, h2, h3, h4, h5⟩ := interp_max_spec Row.moment a t
    exact ⟨i, r, h1, h2, h3, h4, h5⟩

/-- C6 witness: on a dataset whose two rows tie for maximum shear, the
reported max-shear position is the first row. -/
theorem claim_C6_witness :
    shearMax [Row.mk 1 7 0, Row.mk 2 7 0] = some 7 ∧
    shearMaxX [Row.mk 1 7 0, Row.mk 2 7 0] = some 1 := by
  obtain ⟨hmax, _, _⟩ := claim_C6 (Row.mk 1 7 0) [Row.mk 2 7 0]
  obtain ⟨i, r, hget, hv, hx, hb, hfirst⟩ := hmax
  have hi : i = 0 := by
    by_contra hne
    obtain ⟨k, hk⟩ := Nat.exists_eq_succ_of_ne_zero hne
    have h7 : (7 : ℚ) < r.shear := hfirst 0 (Row.mk 1 7 0) (by omega) rfl
    have hle : r.shear ≤ 7 := by
      have hmem : r ∈ [Row.mk 1 7 0, Row.mk 2 7 0] := by
        cases i with
        | zero => exact absurd rfl hne
        | succ k2 =>
          cases k2 with
          | zero =>
            simp only [List.get?_cons_succ, List.get?_cons_zero, Option.some.injEq] at hget
            rw [← hget]; exact List.mem_cons_of_mem _ (List.mem_cons_self _ _)
          | succ k3 => cases hget
      rcases List.mem_cons.mp hmem with he | hm2
      · rw [he]
      · rcases List.mem_cons.mp hm2 with he | hnil
        · rw [he]
        · cases hnil
    exact absurd h7 (not_lt.mpr hle)
  subst hi
  simp only [List.get?_cons_zero, Option.some.injEq] at hget
  rw [← hget] at hv hx
  exact ⟨hv, hx⟩

/-- C7: for every dataset, the serialized data table holds exactly one line
group per input row, in original row order, with the position rendered to 1
decimal place and shear/moment to 2 decimal places. -/
theorem claim_C7 (d : List Row) :
    dataRowsLoop d "" = String.join (d.map fun r =>
      "        " ++ fmtFixed 1 r.x ++ " & " ++ fmtFixed 2 r.shear ++ " & " ++
        fmtFixed 2 r.moment ++ " \\\\\n" ++ "        \\hline\n") := by
  rw [dataRowsLoop_eq, String.empty_append]
  rfl

/-- C8: the shear chart is built from exactly two parallel series over the
same positions: the positive series holds `(x, shear)` where `shear ≥ 0` and
`(x, 0)` elsewhere; the negative series holds `(x, shear)` where `shear < 0`
and `(x, 0)` elsewhere. -/
theorem claim_C8 (d : List Row) :
    sfdCoords d = (String.join (d.map posSeriesLine), String.join (d.map negSeriesLine)) ∧
    (∀ r : Row, 0 ≤ r.shear →
      posSeriesLine r = coordLine r.x (pyStr r.shear) ∧ negSeriesLine r = coordLine r.x "0") ∧
    (∀ r : Row, r.shear < 0 →
      posSeriesLine r = coordLine r.x "0" ∧ negSeriesLine r = coordLine r.x (pyStr r.shear)) := by
  refine ⟨?_, ?_, ?_⟩
  · rw [sfdCoords, sfdCoordsLoop_eq, String.empty_append, String.empty_append]
  · intro r h
    exact ⟨by rw [posSeriesLine, if_pos h], by rw [negSeriesLine, if_neg (not_lt.mpr h)]⟩
  · intro r h
    exact ⟨by rw [posSeriesLine, if_neg (not_le.mpr h)], by rw [negSeriesLine, if_pos h]⟩

/-- C8 witness: the series lines at a nonnegative-shear row and at a
negative-shear row. -/
theorem claim_C8_witness :
    (posSeriesLine (Row.mk 0 5 0) = coordLine 0 (pyStr 5) ∧
     negSeriesLine (Row.mk 0 5 0) = coordLine 0 "0") ∧
    (posSeriesLine (Row.mk 1 (-3) 2) = coordLine 1 "0" ∧
     negSeriesLine (Row.mk 1 (-3) 2) = coordLine 1 (pyStr (-3))) :=
  ⟨(claim_C8 []).2.1 (Row.mk 0 5 0) (by norm_num),
   (claim_C8 []).2.2 (Row.mk 1 (-3) 2) (by norm_num)⟩

/-- C4: for every non-empty dataset, if some row has shear exactly 0 the
reported zero-shear location is the position of such a row (rendered by the
raw `str` conversion); otherwise the slot is the explicit marker `N/A` and
no numeric value. -/
theorem claim_C4 (d : List Row) (hne : d ≠ []) :
    ((∃ r ∈ d, r.shear = 0) → ∃ r ∈ d, r.shear = 0 ∧ zeroText d = pyStr r.x) ∧
    ((¬ ∃ r ∈ d, r.shear = 0) → zeroText d = "N/A") := by
  constructor
  · intro h
    obtain ⟨r, hfind, hmem, hz⟩ := find?_zero_exists d h
    refine ⟨r, hmem, hz, ?_⟩
    rw [zeroText, if_pos ((contains_zero_iff d).mpr h)]
    rw [zeroShearX, hfind]
    rfl
  · intro h
    rw [zeroText, if_neg (fun hc => h ((contains_zero_iff d).mp hc))]

/-- C4 witness: the spec example row `{position=2.5, shear=0, moment=120}`
yields the zero-crossing text `2.5`; a dataset of all-nonzero shear yields
`N/A`. -/
theorem claim_C4_witness :
    (∃ r ∈ [Row.mk (5/2) 0 120], r.shear = 0 ∧
      zeroText [Row.mk (5/2) 0 120] = pyStr r.x) ∧
    zeroText [Row.mk 0 50 0, Row.mk 2 50 100, Row.mk 4 50 0] = "N/A" :=
  ⟨(claim_C4 [Row.mk (5/2) 0 120] (List.cons_ne_nil _ _)).1
      ⟨Row.mk (5/2) 0 120, List.mem_cons_self _ _, rfl⟩,
   (claim_C4 [Row.mk 0 50 0, Row.mk 2 50 100, Row.mk 4 50 0]
      (List.cons_ne_nil _ _)).2
      (by rintro ⟨r, hr, hz⟩
          rcases List.mem_cons.mp hr with he | hr2
          · rw [he] at hz; exact absurd hz (by with_unfolding_all decide)
          · rcases List.mem_cons.mp hr2 with he | hr3
            · rw [he] at hz; exact absurd hz (by with_unfolding_all decide)
            · rcases List.mem_cons.mp hr3 with he | hnil
              · rw [he] at hz; exact absurd hz (by with_unfolding_all decide)
              · cases hnil)⟩

/-- C10: when more than one row has shear exactly 0, the zero-shear location
emitted in the report is the position of the first such row in row order. -/
theorem claim_C10 (d : List Row) (i : Nat) (r : Row)
    (hget : d.get? i = some r) (hz : r.shear = 0)
    (hfirst : ∀ j s, j < i → d.get? j = some s → s.shear ≠ 0) :
    zeroText d = pyStr r.x := by
  have hfind := find?_zero_first d i r hget hz hfirst
  have hmem : r ∈ d := List.mem_of_find?_eq_some hfind
  rw [zeroText, if_pos ((contains_zero_iff d).mpr ⟨r, hmem, hz⟩)]
  rw [zeroShearX, hfind]
  rfl

/-- C10 witness: with zero-shear rows at positions 2.5 and 4, the emitted
location is 2.5, the first one. -/
theorem claim_C10_witness :
    zeroText [Row.mk 0 5 1, Row.mk (5/2) 0 7, Row.mk 4 0 9] = "2.5" := by
  have h := claim_C10 [Row.mk 0 5 1, Row.mk (5/2) 0 7, Row.mk 4 0 9] 1
    (Row.mk (5/2) 0 7) rfl rfl
    (by intro j s hj hg
        cases j with
        | zero =>
          simp only [List.get?_cons_zero, Option.some.injEq] at hg
          rw [← hg]
          with_unfolding_all decide
        | succ k => omega)
  rw [h]
  with_unfolding_all rfl

/-- C1 counterexample: for the dataset `[(0,-5,0), (2,10,3)]` the conclusion
summary reports maximum positive shear `10.00` at location `0.0`, yet no row
pairs the value `10.00` with the position `0.0`: the only row attaining the
maximum sits at `x = 2.0`.  The reported location is not the position of the
row holding the extreme. -/
theorem claim_C1_counterexample :
    conclMaxPosShearVal [Row.mk 0 (-5) 0, Row.mk 2 10 3] = "10.00" ∧
    conclMaxPosShearLoc = "0.0" ∧
    ¬ ∃ r ∈ [Row.mk 0 (-5) 0, Row.mk 2 10 3],
        fmtFixed 2 r.shear = "10.00" ∧ fmtFixed 1 r.x = "0.0" := by
  refine ⟨by with_unfolding_all rfl, rfl, by with_unfolding_all decide⟩

/-- C1 (amended): the value cells of the conclusion summary table are the
true data extremes, but the location cells are computed independently of the
rows: the hardcoded literal `0.0` for max positive shear, the beam length
for max negative shear, and half the beam length for max moment.  The
value-position pairs reference the same source row only when the extremes
happen to lie at those fixed positions. -/
theorem claim_C1 (a : Row) (t : List Row) (bl : Option ℚ) :
    (∃ m, shearMax (a :: t) = some m ∧ conclMaxPosShearVal (a :: t) = fmtFixed 2 m ∧
      (∃ r ∈ a :: t, r.shear = m) ∧ ∀ r ∈ a :: t, r.shear ≤ m) ∧
    (∃ m, shearMin (a :: t) = some m ∧ conclMaxNegShearVal (a :: t) = fmtFixed 2 m ∧
      (∃ r ∈ a :: t, r.shear = m) ∧ ∀ r ∈ a :: t, m ≤ r.shear) ∧
    (∃ m, momentMax (a :: t) = some m ∧ conclMaxMomentVal (a :: t) = fmtFixed 2 m ∧
      (∃ r ∈ a :: t, r.moment = m) ∧ ∀ r ∈ a :: t, r.moment ≤ m) ∧
    conclMaxPosShearLoc = "0.0" ∧
    conclMaxNegShearLoc bl = fmt1N bl ∧
    conclMaxMomentLoc bl = fmt1N (bl.map fun q => q / 2) := by
  refine ⟨?_, ?_, ?_, rfl, rfl, rfl⟩
  · obtain ⟨m, hm, hmem, hb⟩ := rows_max_spec Row.shear a t
    refine ⟨m, hm, ?_, hmem, hb⟩
    rw [conclMaxPosShearVal, shearMax, hm]
    rfl
  · obtain ⟨m, hm, hmem, hb⟩ := rows_min_spec Row.shear a t
    refine ⟨m, hm, ?_, hmem, hb⟩
    rw [conclMaxNegShearVal, shearMin, hm]
    rfl
  · obtain ⟨m, hm, hmem, hb⟩ := rows_max_spec Row.moment a t
    refine ⟨m, hm, ?_, hmem, hb⟩
    rw [conclMaxMomentVal, momentMax, hm]
    rfl

/-- C2 counterexample: the dataset, the image path and the output name are
all held fixed, yet two runs whose internal `datetime.now()` reads format
differently produce different markup — the generation is not a function of
the caller-supplied inputs alone, because `_create_title_page` reads the
clock itself and no `generated_on` parameter exists. -/
theorem claim_C2_counterexample :
    generateLatexContent [Row.mk 0 1 2] "beam.png" "January 01, 2025" ≠
    generateLatexContent [Row.mk 0 1 2] "beam.png" "May 1, 2025" := by
  intro h
  rw [gen_splice, gen_splice] at h
  obtain ⟨tbl, htbl⟩ : ∃ tbl, createDataTable [Row.mk 0 1 2] = some tbl := ⟨_, rfl⟩
  rw [htbl] at h
  simp only [Option.map_some', Option.some.injEq] at h
  have hlen := congrArg String.length h
  simp only [String.length_append] at hlen
  have h1 : ("January 01, 2025" : String).length = 16 := rfl
  have h2 : ("May 1, 2025" : String).length = 11 := rfl
  rw [h1, h2] at hlen
  omega

/-- C2 (amended): the markup is a deterministic function of the dataset, the
image path and the date string read from the clock inside
`_create_title_page`; that date is spliced at exactly one point between two
date-independent pieces, so two runs with equal clock reads are
byte-identical — but the date is read internally, not supplied by the
caller, and the output name never enters the markup at all. -/
theorem claim_C2 (rows : List Row) (img : String) :
    ∃ pre : String, ∃ post : String → String, ∀ c : String,
      generateLatexContent rows img c =
        (createDataTable rows).map fun tbl => pre ++ (c ++ post tbl) :=
  ⟨genDatePre, genDatePost rows img, fun c => gen_splice rows img c⟩

/-- C3 counterexample: loading a table that parses to zero rows does not
fail: `load_data` returns normally, with an empty row list and a NaN
(undefined) beam length.  No `EmptyDatasetError` exists anywhere in the
program. -/
theorem claim_C3_counterexample :
    loadData [] = { data := [], beamLength := none } ∧
    (loadData []).beamLength = none :=
  ⟨rfl, rfl⟩

/-- C3 (amended): `load_data` is total; its beam length is NaN exactly on
zero rows, and the run first dies later — `_create_data_table`'s `idxmax`
raises on the empty column — so markup is produced exactly for non-empty
datasets. -/
theorem claim_C3 (rows : List Row) (img c : String) :
    (loadData rows).data = rows ∧
    ((loadData rows).beamLength = none ↔ rows = []) ∧
    (generateLatexContent rows img c = none ↔ rows = []) := by
  refine ⟨rfl, ⟨?_, ?_⟩, ⟨?_, ?_⟩⟩
  · intro h
    cases rows with
    | nil => rfl
    | cons a t => exact absurd h (by simp [loadData, pandasMax])
  · intro h; subst h; rfl
  · intro h
    cases rows with
    | nil => rfl
    | cons a t =>
      rw [gen_splice] at h
      exact absurd h (by simp [createDataTable])
  · intro h; subst h; rfl

/-- C5 counterexample: the zero-shear location of the Data Interpretation
list is spliced with the raw `str` conversion, not the 1-decimal policy: for
the dataset `[(0,5,1), (2.25,0,3)]` the report prints `x = 2.25 m` — two
decimal places — where the 1-decimal rendering of that position is `2.2`. -/
theorem claim_C5_counterexample :
    zeroText [Row.mk 0 5 1, Row.mk (9/4) 0 3] = "2.25" ∧
    fmtFixed 1 ((9 : ℚ)/4) = "2.2" ∧
    zeroText [Row.mk 0 5 1, Row.mk (9/4) 0 3] ≠ fmtFixed 1 ((9 : ℚ)/4) :=
  ⟨by with_unfolding_all rfl, by with_unfolding_all rfl, by with_unfolding_all decide⟩

/-- C5 (amended): the fixed-decimal policy (1 decimal for positions, 2 for
force/moment) holds for every data-table row line and for every value and
location cell of the conclusion summary — `fmtFixed d` always renders
exactly `d` digits after the decimal point — but the zero-shear location of
the Data Interpretation list is the one exception: when a zero-shear row
exists its position is emitted raw, via the default `str` conversion. -/
theorem claim_C5 (q : ℚ) (r : Row) (d : List Row) (bl : Option ℚ) :
    (∃ s f : String, fmtFixed 1 q = s ++ "." ++ f ∧ f.length = 1) ∧
    (∃ s f : String, fmtFixed 2 q = s ++ "." ++ f ∧ f.length = 2) ∧
    dataRowLine r = "        " ++ fmtFixed 1 r.x ++ " & " ++ fmtFixed 2 r.shear ++ " & " ++
      fmtFixed 2 r.moment ++ " \\\\\n" ++ "        \\hline\n" ∧
    conclMaxPosShearVal d = fmt2N (shearMax d) ∧
    conclMaxNegShearVal d = fmt2N (shearMin d) ∧
    conclMaxMomentVal d = fmt2N (momentMax d) ∧
    conclMaxNegShearLoc bl = fmt1N bl ∧
    conclMaxMomentLoc bl = fmt1N (bl.map fun q2 => q2 / 2) ∧
    ((d.map Row.shear).contains 0 = true → zeroText d = pyStrN (zeroShearX d)) := by
  refine ⟨?_, ?_, rfl, rfl, rfl, rfl, rfl, rfl, ?_⟩
  · exact ⟨(if q < 0 then "-" else "") ++ toString ((roundHalfEven (q * 10 ^ 1)).natAbs / 10 ^ 1),
      decDigitsFixed 1 ((roundHalfEven (q * 10 ^ 1)).natAbs % 10 ^ 1), rfl,
      decDigitsFixed_length 1 _⟩
  · exact ⟨(if q < 0 then "-" else "") ++ toString ((roundHalfEven (q * 10 ^ 2)).natAbs / 10 ^ 2),
      decDigitsFixed 2 ((roundHalfEven (q * 10 ^ 2)).natAbs % 10 ^ 2), rfl,
      decDigitsFixed_length 2 _⟩
  · intro hc
    rw [zeroText, if_pos hc]

/-- C5 witness: the shape facts at `q = 9/4` and the raw-splice exception at
a dataset holding a zero-shear row. -/
theorem claim_C5_witness :
    (∃ s f : String, fmtFixed 1 ((9 : ℚ)/4) = s ++ "." ++ f ∧ f.length = 1) ∧
    zeroText [Row.mk 1 0 1] = pyStrN (zeroShearX [Row.mk 1 0 1]) :=
  ⟨(claim_C5 ((9 : ℚ)/4) (Row.mk 1 0 1) [Row.mk 1 0 1] none).1,
   (claim_C5 ((9 : ℚ)/4) (Row.mk 1 0 1) [Row.mk 1 0 1] none).2.2.2.2.2.2.2.2
     (by with_unfolding_all decide)⟩

/-- C1 witness: the amended statement instantiated on the counterexample
dataset with beam length 2. -/
theorem claim_C1_witness :
    conclMaxPosShearLoc = "0.0" ∧
    conclMaxNegShearLoc (some 2) = fmt1N (some 2) ∧
    ∃ m, shearMax [Row.mk 0 (-5) 0, Row.mk 2 10 3] = some m ∧
      conclMaxPosShearVal [Row.mk 0 (-5) 0, Row.mk 2 10 3] = fmtFixed 2 m ∧
      (∃ r ∈ [Row.mk 0 (-5) 0, Row.mk 2 10 3], r.shear = m) ∧
      ∀ r ∈ [Row.mk 0 (-5) 0, Row.mk 2 10 3], r.shear ≤ m :=
  ⟨(claim_C1 (Row.mk 0 (-5) 0) [Row.mk 2 10 3] (some 2)).2.2.2.1,
   (claim_C1 (Row.mk 0 (-5) 0) [Row.mk 2 10 3] (some 2)).2.2.2.2.1,
   (claim_C1 (Row.mk 0 (-5) 0) [Row.mk 2 10 3] (some 2)).1⟩

/-- C2 witness: the splice decomposition at a concrete dataset, image path
and date. -/
theorem claim_C2_witness :
    ∃ pre : String, ∃ post : String → String,
      generateLatexContent [Row.mk 0 1 2] "beam.png" "January 01, 2025" =
        (createDataTable [Row.mk 0 1 2]).map fun tbl =>
          pre ++ ("January 01, 2025" ++ post tbl) := by
  obtain ⟨pre, post, h⟩ := claim_C2 [Row.mk 0 1 2] "beam.png"
  exact ⟨pre, post, h "January 01, 2025"⟩

/-- C3 witness: a one-row dataset has a defined beam length, while the empty
dataset produces no markup at all. -/
theorem claim_C3_witness :
    (loadData [Row.mk 0 1 2]).beamLength ≠ none ∧
    generateLatexContent [] "beam.png" "January 01, 2025" = none := by
  refine ⟨fun h => ?_, ?_⟩
  · exact List.cons_ne_nil (Row.mk 0 1 2) []
      ((claim_C3 [Row.mk 0 1 2] "beam.png" "January 01, 2025").2.1.mp h)
  · exact (claim_C3 ([] : List Row) "beam.png" "January 01, 2025").2.2.mpr rfl
